import Mathlib

/-
Verification of GarminChatDesktop (Code/GarminChatDesktop.py, Code/ai_client.py,
Code/garmin_handler.py) against its natural-language specification.

The Python sources are shallowly embedded below.  Strings are modelled as
lists of Unicode code points (Nat); `str.lower()` is modelled on the ASCII
range (the only range the keyword tables and regex literals use); Python
floats are modelled as exact rationals (every numeric value appearing in the
claims is exactly representable); `datetime` values are modelled at calendar
date granularity by proleptic Gregorian dates with day arithmetic through the
standard civil-from-days / days-from-civil conversions, mirroring
`datetime - timedelta(days=n)` and `date.weekday()` (Monday = 0).
External collaborators (the garminconnect client, garth, the LLM SDKs) are
modelled as explicit outcome parameters, since the sources only observe
success / raised-exception / returned-value shapes from them.
-/

/-! ## Python string primitives (code-point level) -/

/-- Code points of a Lean string, used to embed Python `str` values. -/
def strCodes (s : String) : List Nat := s.data.map Char.toNat

/-- ASCII lowering of one code point, embedding `str.lower()` on the ASCII
range (non-ASCII points are left unchanged; no keyword or pattern literal in
the source leaves ASCII). -/
def pyLowerCode (n : Nat) : Nat := if 65 ≤ n ∧ n ≤ 90 then n + 32 else n

/-- Code points of `message.lower()` for a message string. -/
def lowerCodes (s : String) : List Nat := (strCodes s).map pyLowerCode

/-- Whether `pat` occurs at the very front of `s`. -/
def beginsWith : List Nat → List Nat → Bool
  | [], _ => true
  | _ :: _, [] => false
  | p :: ps, c :: cs => p = c && beginsWith ps cs

/-- Python substring containment `pat in s`. -/
def hasSub (pat : List Nat) : List Nat → Bool
  | [] => beginsWith pat []
  | s@(_ :: t) => beginsWith pat s || hasSub pat t

/-- Consume a literal from the front, returning the remainder (regex literal
piece). -/
def dropLit : List Nat → List Nat → Option (List Nat)
  | [], s => some s
  | _ :: _, [] => none
  | l :: ls, c :: cs => if l = c then dropLit ls cs else none

/-- Python regex `\s` on the code points the sources can produce. -/
def isSpaceCode (n : Nat) : Bool :=
  n = 32 || n = 9 || n = 10 || n = 13 || n = 11 || n = 12

/-- Python regex `\d` (ASCII digits). -/
def isDigitCode (n : Nat) : Bool := 48 ≤ n && n ≤ 57

/-- Greedy `p+`: one or more code points satisfying `p`, with the remainder.
For the patterns embedded here the classes of adjacent pieces are disjoint,
so greedy maximal munch coincides with regex backtracking semantics. -/
def spanPlus (p : Nat → Bool) (s : List Nat) : Option (List Nat × List Nat) :=
  let t := s.takeWhile p
  if t = [] then none else some (t, s.dropWhile p)

/-- Decimal value of a digit run, embedding `int(match.group(...))`. -/
def digitsVal (ds : List Nat) : Nat := ds.foldl (fun a c => a * 10 + (c - 48)) 0

/-! ## Calendar dates

`PyDate` embeds the date component of a naive `datetime`.  `daysFromCivil`
and `civilFromDays` are the standard proleptic Gregorian conversions to and
from days since 1970-01-01, giving `timedelta` day arithmetic and
`weekday()`. -/

structure PyDate where
  year : Int
  month : Int
  day : Int
deriving DecidableEq, Repr

/-- Days since 1970-01-01 of a civil date. -/
def daysFromCivil (dt : PyDate) : Int :=
  let y : Int := if dt.month ≤ 2 then dt.year - 1 else dt.year
  let era : Int := y.ediv 400
  let yoe : Int := y - era * 400
  let mp : Int := dt.month + (if dt.month > 2 then -3 else 9)
  let doy : Int := (153 * mp + 2).ediv 5 + dt.day - 1
  let doe : Int := yoe * 365 + yoe.ediv 4 - yoe.ediv 100 + doy
  era * 146097 + doe - 719468

/-- Civil date of a count of days since 1970-01-01. -/
def civilFromDays (z0 : Int) : PyDate :=
  let z : Int := z0 + 719468
  let era : Int := z.ediv 146097
  let doe : Int := z - era * 146097
  let yoe : Int := (doe - doe.ediv 1460 + doe.ediv 36524 - doe.ediv 146096).ediv 365
  let y : Int := yoe + era * 400
  let doy : Int := doe - (365 * yoe + yoe.ediv 4 - yoe.ediv 100)
  let mp : Int := (5 * doy + 2).ediv 153
  let d : Int := doy - (153 * mp + 2).ediv 5 + 1
  let m : Int := mp + (if mp < 10 then 3 else -9)
  ⟨if m ≤ 2 then y + 1 else y, m, d⟩

/-- `dt - timedelta(days := n)` at date granularity. -/
def subDays (dt : PyDate) (n : Int) : PyDate := civilFromDays (daysFromCivil dt - n)

/-- `dt.weekday()` with Monday = 0 (1970-01-01 was a Thursday). -/
def pyWeekday (dt : PyDate) : Int := (daysFromCivil dt + 3).emod 7

/-- Chronological order of parsed dates (`datetime` comparison). -/
def pyDateLe (a b : PyDate) : Bool := decide (daysFromCivil a ≤ daysFromCivil b)

/-- Strict chronological order of parsed dates. -/
def pyDateLt (a b : PyDate) : Bool := decide (daysFromCivil a < daysFromCivil b)

/-! ## Intent router

Embeds the decision portion of `GarminChatApp._process_message`
(GarminChatDesktop.py lines 1474-1622): the time-scope detection (explicit
numeric relative periods, then simple relative periods, then count-based
limits) and the ordered-keyword topic classification.  `datetime.now()` is
passed in as the `today` parameter. -/

/-- Unit captured by group 2 of `(?:last|past)\s+(\d+)\s+(day|week|month)s?`. -/
inductive PeriodUnit | day | week | month
deriving DecidableEq, Repr

/-- Leading word of `(?:last|past|this)\s+(month|week|year)` (`group(0).split()[0]`). -/
inductive LeadWord | lastW | pastW | thisW
deriving DecidableEq, Repr

/-- Period captured by group 1 of `(?:last|past|this)\s+(month|week|year)`. -/
inductive SimplePeriod | month | week | year
deriving DecidableEq, Repr

/-- Match of `(?:last|past)\s+(\d+)\s+(day|week|month)s?` anchored at the
front of `s` (the trailing optional `s` constrains nothing). -/
def numericPeriodAt (s : List Nat) : Option (Nat × PeriodUnit) := do
  let r1 ← (dropLit (strCodes "last") s).orElse fun _ => dropLit (strCodes "past") s
  let (_, r2) ← spanPlus isSpaceCode r1
  let (ds, r3) ← spanPlus isDigitCode r2
  let (_, r4) ← spanPlus isSpaceCode r3
  let u ←
    if (dropLit (strCodes "day") r4).isSome then some PeriodUnit.day
    else if (dropLit (strCodes "week") r4).isSome then some PeriodUnit.week
    else if (dropLit (strCodes "month") r4).isSome then some PeriodUnit.month
    else none
  pure (digitsVal ds, u)

/-- `re.search` of the numeric-period pattern: leftmost match. -/
def findNumericPeriod : List Nat → Option (Nat × PeriodUnit)
  | [] => none
  | s@(_ :: t) => (numericPeriodAt s).orElse fun _ => findNumericPeriod t

/-- Match of `(?:last|past|this)\s+(month|week|year)` anchored at the front. -/
def simplePeriodAt (s : List Nat) : Option (LeadWord × SimplePeriod) := do
  let (w, r1) ←
    ((dropLit (strCodes "last") s).map fun r => (LeadWord.lastW, r)).orElse fun _ =>
      ((dropLit (strCodes "past") s).map fun r => (LeadWord.pastW, r)).orElse fun _ =>
        (dropLit (strCodes "this") s).map fun r => (LeadWord.thisW, r)
  let (_, r2) ← spanPlus isSpaceCode r1
  let p ←
    if (dropLit (strCodes "month") r2).isSome then some SimplePeriod.month
    else if (dropLit (strCodes "week") r2).isSome then some SimplePeriod.week
    else if (dropLit (strCodes "year") r2).isSome then some SimplePeriod.year
    else none
  pure (w, p)

/-- `re.search` of the simple-period pattern: leftmost match. -/
def findSimplePeriod : List Nat → Option (LeadWord × SimplePeriod)
  | [] => none
  | s@(_ :: t) => (simplePeriodAt s).orElse fun _ => findSimplePeriod t

/-- Match of `(?:last|past|recent)\s+(\d+)` anchored at the front. -/
def countNumberAt (s : List Nat) : Option Nat := do
  let r1 ←
    (dropLit (strCodes "last") s).orElse fun _ =>
      (dropLit (strCodes "past") s).orElse fun _ => dropLit (strCodes "recent") s
  let (_, r2) ← spanPlus isSpaceCode r1
  let (ds, _) ← spanPlus isDigitCode r2
  pure (digitsVal ds)

/-- `re.search` of the explicit-count pattern: leftmost match. -/
def findCountNumber : List Nat → Option Nat
  | [] => none
  | s@(_ :: t) => (countNumberAt s).orElse fun _ => findCountNumber t

/-- Broad-request phrases that raise the default activity limit to 30. -/
def broadPhrases : List String :=
  ["show me more", "more activities", "all activities", "all my activities",
   "show all", "recent activities"]

/-- Python `any(phrase in query_lower for phrase in [...])`. -/
def anyBroadPhrase (q : List Nat) : Bool :=
  broadPhrases.any fun p => hasSub (strCodes p) q

/-- Topic category selected by the keyword chain. -/
inductive Topic
  | activities | sleep | summary | bodyBattery | stress | respiration
  | hydration | nutrition | floors | intensity | spo2 | hrv | training
  | comprehensive | all
deriving DecidableEq, Repr

/-- Python `any(word in query_lower for word in [...])` over one keyword group. -/
def anyKeyword (q : List Nat) (ws : List String) : Bool :=
  ws.any fun w => hasSub (strCodes w) q

/-- The fixed, ordered keyword groups of the `elif` chain (lines 1591-1622),
in source order.  The order is the tie-break for words appearing in several
groups. -/
def topicGroups : List (List String × Topic) :=
  [ (["activity", "activities", "workout", "run", "walk", "bike", "exercise"], .activities),
    (["sleep", "rest", "bed"], .sleep),
    (["step", "walk", "distance", "calorie"], .summary),
    (["body battery", "energy"], .bodyBattery),
    (["stress", "stressed", "tension"], .stress),
    (["respiration", "breathing", "breath"], .respiration),
    (["hydration", "water", "drink", "fluid"], .hydration),
    (["nutrition", "food", "eat", "meal", "diet", "protein", "carbs", "fat",
      "macros", "calories consumed", "food log", "logged"], .nutrition),
    (["floor", "climb", "stairs", "elevation"], .floors),
    (["intensity", "vigorous", "moderate"], .intensity),
    (["spo2", "oxygen", "pulse ox"], .spo2),
    (["hrv", "heart rate variability", "variability"], .hrv),
    (["vo2", "fitness age", "training status", "training load"], .training),
    (["health", "wellness", "overview", "summary"], .comprehensive) ]

/-- The `elif` chain over an ordered group list: first-matching group wins,
`all` when no group matches. -/
def classifyFrom : List (List String × Topic) → List Nat → Topic
  | [], _ => .all
  | g :: rest, q => if anyKeyword q g.1 then g.2 else classifyFrom rest q

/-- Topic of a lowered message: the `elif` chain of the source over the fixed
group order. -/
def classifyTopic (q : List Nat) : Topic := classifyFrom topicGroups q

/-- Resolved time scope: an explicit date range or an item count. -/
structure DateRange where
  startDate : PyDate
  endDate : PyDate
deriving DecidableEq, Repr

/-- Time scope of an intent decision. -/
inductive TimeScope
  | range (r : DateRange)
  | count (n : Nat)
deriving DecidableEq, Repr

/-- The output of the router: a time scope and a topic. -/
structure IntentDecision where
  scope : TimeScope
  topic : Topic
deriving DecidableEq, Repr

/-- Days subtracted for `last/past N day|week|month` (month approximated as
30 days, as in the source). -/
def periodDays (n : Nat) : PeriodUnit → Int
  | .day => n
  | .week => 7 * n
  | .month => 30 * n

/-- Start date for the simple relative periods (lines 1505-1532): calendar
aware for `this`, fixed lookback for `last`/`past`. -/
def simpleStart (today : PyDate) (w : LeadWord) : SimplePeriod → PyDate
  | .month => match w with
    | .thisW => { today with day := 1 }
    | _ => subDays today 30
  | .week => match w with
    | .thisW => subDays today (pyWeekday today)
    | _ => subDays today 7
  | .year => match w with
    | .thisW => { today with month := 1, day := 1 }
    | _ => subDays today 365

/-- The routing decision as a function of the lowered code points.  Date
range requests always target the activities fetch path in the source. -/
def routeCodes (today : PyDate) (q : List Nat) : IntentDecision :=
  match findNumericPeriod q with
  | some (n, u) => ⟨.range ⟨subDays today (periodDays n u), today⟩, .activities⟩
  | none =>
    match findSimplePeriod q with
    | some (w, p) => ⟨.range ⟨simpleStart today w p, today⟩, .activities⟩
    | none =>
      let lim0 : Nat := if anyBroadPhrase q then 30 else 5
      let lim : Nat :=
        match findCountNumber q with
        | some k => min k 50
        | none => lim0
      ⟨.count lim, classifyTopic q⟩

/-- The router: `query_lower = message.lower()` followed by the decision
logic. -/
def routeIntent (today : PyDate) (message : String) : IntentDecision :=
  routeCodes today (lowerCodes message)

/-! ## AI provider adapter (`AIClient.chat`, ai_client.py lines 159-416)

The underlying provider call is a parameter receiving the accumulated
conversation history and returning either the response text or the string
representation of the raised exception.  The user-facing texts of the error
classification branches are shortened to their category tags here: the
classification structure (which branch fires) is embedded, the long
remediation strings are not, and no claim mentions their wording. -/

/-- One entry of `AIClient.conversation_history`. -/
structure ChatMsg where
  role : String
  content : String
deriving DecidableEq, Repr

/-- The message actually appended for the user turn (context prepended when
the context string is truthy, lines 224-228). -/
def fullMessage (userMessage : String) (garminContext : Option String) : String :=
  match garminContext with
  | some c => if c ≠ "" then c ++ "\n\nUser Question: " ++ userMessage else userMessage
  | none => userMessage

/-- Error classification of `AIClient.chat` (lines 256-416), reduced to the
branch tags; the branch conditions on the lowered error string are the
source. -/
def classifyProviderError (e : String) : String :=
  let es := lowerCodes e
  if hasSub (strCodes "deprecated") es ||
      (hasSub (strCodes "404") es && hasSub (strCodes "model") es) then
    "model-deprecated"
  else if hasSub (strCodes "429") es || hasSub (strCodes "quota") es ||
      hasSub (strCodes "rate limit") es || hasSub (strCodes "resource_exhausted") es then
    "quota-exceeded"
  else if hasSub (strCodes "401") es || hasSub (strCodes "unauthorized") es ||
      (hasSub (strCodes "invalid") es && hasSub (strCodes "key") es) then
    "invalid-api-key"
  else if hasSub (strCodes "403") es || hasSub (strCodes "forbidden") es then
    "access-denied"
  else if hasSub (strCodes "timeout") es || hasSub (strCodes "timed out") es then
    "request-timeout"
  else if hasSub (strCodes "connection") es || hasSub (strCodes "network") es then
    "connection-error"
  else
    "ai-service-error"

/-- One `chat` call: append the user turn, invoke the provider on the
accumulated history, and on success append the assistant turn; on a raised
exception return the classified error text without touching history further.
Returns (returned text, conversation history after the call). -/
def chatStep (history : List ChatMsg) (userMessage : String)
    (garminContext : Option String)
    (provider : List ChatMsg → Except String String) : String × List ChatMsg :=
  let fm := fullMessage userMessage garminContext
  let h1 := history ++ [⟨"user", fm⟩]
  match provider h1 with
  | .ok resp => (resp, h1 ++ [⟨"assistant", resp⟩])
  | .error e => (classifyProviderError e, h1)

/-! ## Session / auth gate (`GarminDataHandler.authenticate` lines 43-226 and
`GarminDataHandler.submit_mfa` lines 228-383)

Each external outcome the control flow branches on is a field of an
environment record; the result shape mirrors the returned dictionaries. -/

/-- Outcome of `garth.login(email, password, return_on_mfa=True)`. -/
inductive LoginOutcome
  | ok                    -- logged in, no MFA
  | mfa                   -- returned an (oauth1_token, client_state) tuple
  | httpErr (m : String)  -- raised GarthHTTPError
deriving DecidableEq, Repr

/-- External outcomes observed by `authenticate` (no MFA callback). -/
structure AuthEnv where
  tokensPresent : Bool   -- both oauth token files exist
  resumeOk : Bool        -- garth.resume (or the manual token load) succeeded
  verifyOk : Bool        -- test get_activities(0, 1) call succeeded
  refreshOk : Bool       -- garth.client.refresh_oauth2() succeeded
  refreshSaveOk : Bool   -- garth.save after the refresh succeeded
  reverifyOk : Bool      -- get_activities(0, 1) after the refresh succeeded
  login : LoginOutcome   -- fresh login outcome
  saveOk : Bool          -- garth.save after a fresh no-MFA login succeeded
deriving DecidableEq, Repr

/-- Result shape of the auth entry points. -/
inductive AuthResult
  | success
  | mfaRequired
  | authError (m : String)
deriving DecidableEq, Repr

/-- Fresh-login tail of `authenticate` (lines 188-226).  Note that the
`garth.save` on the no-MFA success path (line 206) is not individually
guarded: its exception propagates to the outer handler (line 224), which
returns an error result.  The second component records whether tokens were
persisted. -/
def freshLogin (env : AuthEnv) : AuthResult × Bool :=
  match env.login with
  | .mfa => (.mfaRequired, false)
  | .httpErr m => (.authError ("Login failed: " ++ m), false)
  | .ok =>
    if env.saveOk then (.success, true)
    else (.authError "Authentication error: token save failed", false)

/-- `authenticate` (lines 43-226): resume, verify, one refresh, fall back to
fresh login.  Wrapped `get_full_name` calls never alter control flow. -/
def authenticate (env : AuthEnv) : AuthResult × Bool :=
  if env.tokensPresent && env.resumeOk then
    if env.verifyOk then (.success, false)
    else if env.refreshOk && env.refreshSaveOk && env.reverifyOk then (.success, true)
    else freshLogin env
  else freshLogin env

/-- Outcome of the first `resume_login(client_state, mfa_code)` attempt. -/
inductive ResumeLoginOutcome
  | ok
  | csrfErr               -- raised with "CSRF token" in the message
  | otherErr (m : String) -- raised with any other message
deriving DecidableEq, Repr

/-- Outcome of the fresh `garth.login` retried after a stale challenge. -/
inductive MfaRetryOutcome
  | mfaTuple          -- returned the MFA tuple: retry resume_login
  | notTuple          -- did not return the tuple
  | raises (m : String)
deriving DecidableEq, Repr

/-- External outcomes observed by `submit_mfa`. -/
structure MfaEnv where
  haveClientState : Bool
  firstAttempt : ResumeLoginOutcome
  retryLogin : MfaRetryOutcome  -- consulted only after a CSRF-stale failure
  secondAttemptOk : Bool        -- resume_login with the fresh state
  saveOk : Bool                 -- the token-persistence block succeeded
deriving DecidableEq, Repr

/-- `submit_mfa` (lines 228-383).  The whole token-save block is wrapped in
its own `try`/`except` that logs and continues (lines 276-364), so the
result does not depend on `saveOk`; the second component records whether the
tokens were persisted. -/
def submitMfa (env : MfaEnv) : AuthResult × Bool :=
  if !env.haveClientState then
    (.authError "Must authenticate first before submitting MFA", false)
  else
    match env.firstAttempt with
    | .ok => (.success, env.saveOk)
    | .otherErr m => (.authError ("MFA submission failed: " ++ m), false)
    | .csrfErr =>
      match env.retryLogin with
      | .mfaTuple =>
        if env.secondAttemptOk then (.success, env.saveOk)
        else (.authError "MFA submission failed: resume after fresh login", false)
      | .notTuple =>
        (.authError "MFA submission failed: fresh login did not return MFA state", false)
      | .raises m => (.authError ("MFA submission failed: " ++ m), false)

/-! ## Metric fetchers (garmin_handler.py lines 418-1354)

Each fetcher is embedded as a function of the outcome of each external client call: the
outcome: `.ok d` for a returned dictionary, `.error e` for a raised
exception, where `e` distinguishes `AttributeError` (method unsupported)
from any other exception — the two classes the sources catch separately.
Raw dictionaries are modelled as string-keyed integer association lists
(the `date` string field the normalizers insert is carried separately where
a record structure is used).  Each fetcher is the body after the
`_ensure_authenticated()` guard, i.e. the Authenticated-state behavior. -/

/-- Exception classes the fetchers distinguish. -/
inductive PyErr
  | attrErr (m : String)  -- AttributeError: method unsupported in the client
  | otherErr (m : String) -- any other (e.g. transient network) failure
deriving DecidableEq, Repr

/-- Raw provider dictionary with integer values. -/
def RawDict := List (String × Int)
deriving DecidableEq, Repr

/-- Python `d.get(k, dflt)` for integer-valued keys. -/
def dget (d : RawDict) (k : String) (dflt : Int) : Int :=
  match List.find? (fun p => p.1 = k) d with
  | some p => p.2
  | none => dflt

/-- Python `k in d`. -/
def hasKey (d : RawDict) (k : String) : Bool :=
  List.any d fun p => p.1 = k

/-- Python `d[k] = v` (replace or append). -/
def dset (d : RawDict) (k : String) (v : Int) : RawDict :=
  match d with
  | [] => [(k, v)]
  | p :: rest => if p.1 = k then (k, v) :: rest else p :: dset rest k v

/-- `get_steps_data` (lines 843-860): raw dictionary, empty on exception. -/
def getStepsData : Except PyErr RawDict → RawDict
  | .ok d => d
  | .error _ => []

/-- `get_heart_rate_data` (lines 862-879). -/
def getHeartRateData : Except PyErr RawDict → RawDict
  | .ok d => d
  | .error _ => []

/-- `get_sleep_data` (lines 881-898). -/
def getSleepData : Except PyErr RawDict → RawDict
  | .ok d => d
  | .error _ => []

/-- Normalized Body Battery record (lines 938-945). -/
structure BodyBatteryRec where
  date : String
  charged : Int
  drained : Int
  highest : Int
  lowest : Int
  current : Int
deriving DecidableEq, Repr

/-- `get_body_battery` (lines 919-953): normalize a truthy dictionary,
`none` (the empty record) on a falsy response or any exception. -/
def getBodyBattery (date : String) : Except PyErr RawDict → Option BodyBatteryRec
  | .ok d =>
    if d ≠ [] then
      some ⟨date, dget d "bodyBatteryChargedValue" 0, dget d "bodyBatteryDrainedValue" 0,
        dget d "bodyBatteryHighestValue" 0, dget d "bodyBatteryLowestValue" 0,
        dget d "bodyBatteryMostRecentValue" 0⟩
    else none
  | .error _ => none

/-- Normalized stress record (lines 973-982). -/
structure StressRec where
  date : String
  average : Int
  max : Int
  rest : Int
  activity : Int
  lowDuration : Int
  mediumDuration : Int
  highDuration : Int
deriving DecidableEq, Repr

/-- `get_stress_data` (lines 955-989). -/
def getStressData (date : String) : Except PyErr RawDict → Option StressRec
  | .ok d =>
    if d ≠ [] then
      some ⟨date, dget d "averageStressLevel" 0, dget d "maxStressLevel" 0,
        dget d "restStressLevel" 0, dget d "activityStressLevel" 0,
        dget d "lowStressDuration" 0, dget d "mediumStressDuration" 0,
        dget d "highStressDuration" 0⟩
    else none
  | .error _ => none

/-- Normalized respiration record (lines 1008-1014). -/
structure RespirationRec where
  date : String
  wakingAvg : Int
  sleepingAvg : Int
  highest : Int
  lowest : Int
deriving DecidableEq, Repr

/-- `get_respiration_data` (lines 991-1021). -/
def getRespirationData (date : String) : Except PyErr RawDict → Option RespirationRec
  | .ok d =>
    if d ≠ [] then
      some ⟨date, dget d "avgWakingRespirationValue" 0, dget d "avgSleepRespirationValue" 0,
        dget d "highestRespirationValue" 0, dget d "lowestRespirationValue" 0⟩
    else none
  | .error _ => none

/-- `get_hydration_data` (lines 1023-1044): `client result or {}`. -/
def getHydrationData : Except PyErr RawDict → RawDict
  | .ok d => d
  | .error _ => []

/-- Normalized floors record (lines 1064-1069), fed by the steps endpoint. -/
structure FloorsRec where
  date : String
  floorsAscended : Int
  floorsDescended : Int
  floorsAscendedGoal : Int
deriving DecidableEq, Repr

/-- `get_floors_data` (lines 1046-1073). -/
def getFloorsData (date : String) : Except PyErr RawDict → Option FloorsRec
  | .ok d =>
    if d ≠ [] then
      some ⟨date, dget d "floorsAscended" 0, dget d "floorsDescended" 0,
        dget d "floorsAscendedGoal" 0⟩
    else none
  | .error _ => none

/-- Normalized intensity-minutes record (lines 1093-1100), fed by the heart
rate endpoint, with a default weekly goal of 150. -/
structure IntensityRec where
  date : String
  moderate : Int
  vigorous : Int
  weeklyModerate : Int
  weeklyVigorous : Int
  weeklyGoal : Int
deriving DecidableEq, Repr

/-- `get_intensity_minutes` (lines 1075-1104). -/
def getIntensityMinutes (date : String) : Except PyErr RawDict → Option IntensityRec
  | .ok d =>
    if d ≠ [] then
      some ⟨date, dget d "moderateIntensityMinutes" 0, dget d "vigorousIntensityMinutes" 0,
        dget d "weeklyModerateIntensityMinutes" 0, dget d "weeklyVigorousIntensityMinutes" 0,
        dget d "intensityMinutesGoal" 150⟩
    else none
  | .error _ => none

/-- `get_user_summary` (lines 418-469): returns the provider summary, empty
on any exception (the display-name recovery attempts are each wrapped). -/
def getUserSummary : Except PyErr RawDict → RawDict
  | .ok d => d
  | .error _ => []

/-- Normalized calories record (lines 1124-1131). -/
structure CaloriesRec where
  date : String
  totalBurned : Int
  activeBurned : Int
  bmr : Int
  consumed : Int
  net : Int
deriving DecidableEq, Repr

/-- `get_calories_data` (lines 1106-1135), reading through
`get_user_summary`. -/
def getCaloriesData (date : String) (summaryCall : Except PyErr RawDict) : Option CaloriesRec :=
  let s := getUserSummary summaryCall
  if s ≠ [] then
    some ⟨date, dget s "totalKilocalories" 0, dget s "activeKilocalories" 0,
      dget s "bmrKilocalories" 0, dget s "consumedCalories" 0, dget s "netCalorieGoal" 0⟩
  else none

/-- The full nutrition record built from the dedicated endpoint (lines
1160-1170; the `date` string field is carried by the caller). -/
def nutritionFull (d : RawDict) : RawDict :=
  [("calories_consumed", dget d "totalCalories" (dget d "consumedCalories" 0)),
   ("protein_g", dget d "totalProtein" 0), ("carbs_g", dget d "totalCarbs" 0),
   ("fat_g", dget d "totalFat" 0), ("fiber_g", dget d "totalFiber" 0),
   ("sugar_g", dget d "totalSugar" 0), ("sodium_mg", dget d "totalSodium" 0),
   ("water_ml", dget d "totalWater" 0)]

/-- `get_nutrition_summary` (lines 1137-1203): three sequential sources,
each individually guarded; empty dictionary when all fail. -/
def getNutritionSummary (m1 m2 m3 : Except PyErr RawDict) : RawDict :=
  let early : Option RawDict :=
    match m1 with
    | .ok d => if d ≠ [] then some (nutritionFull d) else none
    | .error _ => none
  match early with
  | some r => r
  | none =>
    let nd1 : RawDict :=
      match m2 with
      | .ok s =>
        if hasKey s "consumedCalories" then
          [("calories_consumed", dget s "consumedCalories" 0),
           ("calories_goal", dget s "netCalorieGoal" 0)]
        else []
      | .error _ => []
    let nd2 : RawDict :=
      match m3 with
      | .ok st =>
        if st ≠ [] then
          let a := if hasKey st "consumedCalories" then
            dset nd1 "calories_consumed" (dget st "consumedCalories" 0) else nd1
          if hasKey st "netCalorieGoal" then
            dset a "calories_goal" (dget st "netCalorieGoal" 0) else a
        else nd1
      | .error _ => nd1
    nd2

/-- `get_spo2_data` (lines 1234-1254): `client result or {}`. -/
def getSpo2Data : Except PyErr RawDict → RawDict
  | .ok d => d
  | .error _ => []

/-- `get_hrv_data` (lines 1312-1332): `client result or {}`. -/
def getHrvData : Except PyErr RawDict → RawDict
  | .ok d => d
  | .error _ => []

/-- `get_training_status` (lines 1273-1288): `client result or {}`. -/
def getTrainingStatus : Except PyErr RawDict → RawDict
  | .ok d => d
  | .error _ => []

/-! ## Date-range activity fetch (`get_activities_by_date`, lines 495-552)

The external pagination endpoint is a parameter `client start limit`
returning a batch (the `get_activities` wrapper already collapses its own
exceptions to `[]`, lines 471-493).  The `startTimeLocal` of an activity is
either missing (falsy string: the activity is skipped), malformed (its
`strptime` raises, aborting the whole call to `[]` through the outer
handler), or a parsed date.  The two date arguments are received already
valid, as every caller passes `strftime` output.  Every external request
made is recorded in the result for the pagination claims. -/

/-- The `startTimeLocal` field as the scan observes it. -/
inductive DateField
  | missing
  | malformed
  | good (d : PyDate)
deriving DecidableEq, Repr

/-- An activity as far as this fetch inspects it. -/
structure PyActivity where
  activityId : Int
  startTimeLocal : DateField
deriving DecidableEq, Repr

/-- Outcome of scanning one batch. -/
inductive ScanOut
  | early (acc : List PyActivity)  -- reached an activity dated before start
  | aborted                        -- a date failed to parse: exception path
  | finished (acc : List PyActivity)
deriving DecidableEq, Repr

/-- The inner `for activity in activities` loop (lines 527-538). -/
def scanBatch (s e : PyDate) (acc : List PyActivity) : List PyActivity → ScanOut
  | [] => .finished acc
  | a :: rest =>
    match a.startTimeLocal with
    | .missing => scanBatch s e acc rest
    | .malformed => .aborted
    | .good d =>
      if pyDateLe s d && pyDateLe d e then scanBatch s e (acc ++ [a]) rest
      else if pyDateLt d s then .early acc
      else scanBatch s e acc rest

/-- Whether the scan keeps this activity: a parsed date inside
[start, end]. -/
def inDateRange (s e : PyDate) (b : PyActivity) : Bool :=
  match b.startTimeLocal with
  | .good d => pyDateLe s d && pyDateLe d e
  | _ => false

/-- Whether scanning this activity neither aborts nor terminates the fetch:
no malformed date and no date before the range start. -/
def scanKeepsGoing (s : PyDate) (b : PyActivity) : Bool :=
  match b.startTimeLocal with
  | .missing => true
  | .malformed => false
  | .good d => !pyDateLt d s

/-- Result of the fetch: collected activities, the (start, limit) requests
issued to the external endpoint, and whether the safety-cap warning fired. -/
structure FetchOut where
  activities : List PyActivity
  requests : List (Nat × Nat)
  capWarning : Bool
deriving DecidableEq, Repr

/-- The `while True` pagination loop (lines 521-546): fixed batch size 50,
stop on an empty batch, early return from the scan, abort to `[]` on a
malformed date, and break with a logged warning once the next start index
reaches the 500-activity safety cap. -/
def goFetch (client : Nat → Nat → List PyActivity) (s e : PyDate)
    (currentStart : Nat) (acc : List PyActivity) (reqs : List (Nat × Nat)) : FetchOut :=
  let batch := client currentStart 50
  let reqs2 := reqs ++ [(currentStart, 50)]
  if batch = [] then ⟨acc, reqs2, false⟩
  else
    match scanBatch s e acc batch with
    | .early acc2 => ⟨acc2, reqs2, false⟩
    | .aborted => ⟨[], reqs2, false⟩
    | .finished acc2 =>
      if 500 ≤ currentStart + 50 then ⟨acc2, reqs2, true⟩
      else goFetch client s e (currentStart + 50) acc2 reqs2
termination_by 500 - currentStart
decreasing_by simp_wf; omega

/-- `get_activities_by_date` for already-parsed date arguments. -/
def getActivitiesByDate (client : Nat → Nat → List PyActivity) (s e : PyDate) : FetchOut :=
  goFetch client s e 0 [] []

/-! ## Strength-training decomposition
(`get_strength_training_details`, garmin_handler.py lines 579-743)

Set and exercise records carry the vendor fields this function reads, each
as an `Option` so a missing key takes the `.get` default of the source.  Numeric
set fields are rationals, embedding Python numbers exactly for every value
the claims touch; `round(x, 1)` is embedded as rounding to tenths (the
half-to-even tie rule of Python floats never fires on the exact
values). -/

/-- One element of the `sets` list of an exercise. -/
structure PySet where
  setType : Option String
  repetitions : Option Int
  reps : Option Int
  weight : Option ℚ
  weightDisplayUnit : Option String
  duration : Option ℚ
deriving DecidableEq, Repr

/-- One element of the `exerciseSets` list: an exercise group. -/
structure PyExercise where
  exerciseName : Option String
  category : Option String
  sets : List PySet
deriving DecidableEq, Repr

/-- Python `a or b` for strings where `a` defaults to `None` (falsy: `None`
or the empty string). -/
def pyOrStr (a : Option String) (b : String) : String :=
  match a with
  | some s => if s ≠ "" then s else b
  | none => b

/-- Python falsy-or fallback from the `repetitions` field to the `reps` field, each defaulting to 0 when absent. -/
def repsOf (s : PySet) : Int :=
  let r1 := s.repetitions.getD 0
  if r1 ≠ 0 then r1 else s.reps.getD 0

/-- Whether the set counts as ACTIVE (`setType` is `ACTIVE` or `active`). -/
def isActiveSet (s : PySet) : Bool :=
  s.setType.getD "" = "ACTIVE" || s.setType.getD "" = "active"

/-- Whether the set counts as REST. -/
def isRestSet (s : PySet) : Bool :=
  s.setType.getD "" = "REST" || s.setType.getD "" = "rest"

/-- A normalized set in the output (lines 691-697). -/
structure SetInfo where
  setNumber : Nat
  reps : Int
  weight : ℚ
  weightUnit : String
  durationSeconds : ℚ
deriving DecidableEq, Repr

/-- The per-set loop for one exercise (lines 678-713): numbering ACTIVE sets
from 1, accumulating reps, conditional volume (`if weight and reps`), and
positive REST durations.  Returns (set infos, rest times, total reps, total
volume). -/
def buildSets : List PySet → Nat → List SetInfo × List ℚ × Int × ℚ
  | [], _ => ([], [], 0, 0)
  | s :: rest, k =>
    if isActiveSet s then
      let reps := repsOf s
      let w := s.weight.getD 0
      let info : SetInfo := ⟨k + 1, reps, w, s.weightDisplayUnit.getD "lb", s.duration.getD 0⟩
      let (is, rs, tr, tv) := buildSets rest (k + 1)
      (info :: is, rs, reps + tr, (if w ≠ 0 ∧ reps ≠ 0 then w * reps else 0) + tv)
    else if isRestSet s then
      let d := s.duration.getD 0
      let (is, rs, tr, tv) := buildSets rest k
      (is, (if 0 < d then [d] else []) ++ rs, tr, tv)
    else buildSets rest k

/-- A normalized exercise in the output (lines 668-675, filled by the set
loop). -/
structure ExerciseInfo where
  name : String
  category : String
  sets : List SetInfo
  restTimes : List ℚ
  totalReps : Int
  totalVolume : ℚ
deriving DecidableEq, Repr

/-- The exercise record built for one `exerciseSets` element. -/
def processExercise (e : PyExercise) : ExerciseInfo :=
  let (is, rs, tr, tv) := buildSets e.sets 0
  ⟨pyOrStr e.exerciseName (e.category.getD "Unknown Exercise"), e.category.getD "",
    is, rs, tr, tv⟩

/-- Accumulated state of the outer `for exercise_data in exercise_sets`
loop (lines 654-718): kept exercises, global set / rep / volume totals, and
the global rest-time list feeding `average_rest_time`. -/
structure WalkAcc where
  exercises : List ExerciseInfo
  totalSets : Int
  totalReps : Int
  totalVolume : ℚ
  restTimes : List ℚ
deriving DecidableEq, Repr

/-- The outer exercise loop: an exercise with no ACTIVE sets is not added
(line 716), global set/rep counts advance per ACTIVE set, volume only for
kept exercises, and every positive REST duration joins the global list. -/
def walkExercises : List PyExercise → WalkAcc
  | [] => ⟨[], 0, 0, 0, []⟩
  | e :: rest =>
    let info := processExercise e
    let acc := walkExercises rest
    ⟨(if info.sets ≠ [] then info :: acc.exercises else acc.exercises),
      info.sets.length + acc.totalSets,
      info.totalReps + acc.totalReps,
      (if info.sets ≠ [] then info.totalVolume else 0) + acc.totalVolume,
      info.restTimes ++ acc.restTimes⟩

/-- The positive REST durations of a set list, in order — the contribution
one exercise group makes to the global rest-time list. -/
def collectRests : List PySet → List ℚ
  | [] => []
  | s :: rest =>
    if isActiveSet s then collectRests rest
    else if isRestSet s then
      (if 0 < s.duration.getD 0 then [s.duration.getD 0] else []) ++ collectRests rest
    else collectRests rest

/-- Concatenation of two walk states: the outer exercise loop is a fold
whose per-group contribution is independent of the accumulator. -/
def combineWalk (a b : WalkAcc) : WalkAcc :=
  ⟨a.exercises ++ b.exercises, a.totalSets + b.totalSets, a.totalReps + b.totalReps,
    a.totalVolume + b.totalVolume, a.restTimes ++ b.restTimes⟩

/-- Python `round(x, 1)` on the exact rational embedding. -/
def pyRound1 (q : ℚ) : ℚ := (round (q * 10) : ℤ) / 10

/-- Mean of the collected rest times, 0 when none were collected
(line 721). -/
def pyAvg (l : List ℚ) : ℚ := if l ≠ [] then l.sum / l.length else 0

/-- The detailed-activity dictionary as this function reads it.  The raw
`exerciseSets` and fallback `sets` keys are both present
(the source falls back from the `exerciseSets` key to the `sets` key). -/
structure StrengthDetails where
  activityTypeKey : Option String
  activityName : Option String
  startTimeLocal : Option String
  duration : Option ℚ
  calories : Option Int
  exerciseSets : Option (List PyExercise)
  setsAlt : Option (List PyExercise)
deriving DecidableEq, Repr

/-- The effective group list: the `exerciseSets` key when truthy, else the fallback `sets` key. -/
def effectiveSets (d : StrengthDetails) : List PyExercise :=
  let a := d.exerciseSets.getD []
  if a ≠ [] then a else d.setsAlt.getD []

/-- The workout-level metrics block (lines 732-738). -/
structure StrengthMetrics where
  totalExercises : Nat
  totalSets : Int
  totalReps : Int
  totalVolume : ℚ
  averageRestTime : ℚ
deriving DecidableEq, Repr

/-- The structured output (lines 723-739). -/
structure StrengthOutput where
  activityId : Int
  activityName : String
  date : String
  startTime : String
  durationMinutes : Int
  durationSeconds : ℚ
  calories : Int
  exercises : List ExerciseInfo
  metrics : StrengthMetrics
deriving DecidableEq, Repr

/-- Result of the decomposition: a structured workout or the error
dictionary. -/
inductive StrengthResult
  | err (m : String)
  | ok (o : StrengthOutput)
deriving DecidableEq, Repr

/-- Python `s[:10]`. -/
def strTake10 (s : String) : String := ⟨s.data.take 10⟩

/-- `get_strength_training_details` (lines 579-743) for an already-fetched
details dictionary: `none` embeds an empty/falsy `get_activity_details`
result. -/
def getStrengthTrainingDetails (activityId : Int) :
    Option StrengthDetails → StrengthResult
  | none => .err "Could not fetch activity details"
  | some d =>
    let tk := d.activityTypeKey.getD ""
    if !hasSub (strCodes "strength") (lowerCodes tk) then
      .err ("Not a strength training activity (type: " ++ tk ++ ")")
    else
      let w := walkExercises (effectiveSets d)
      let st := d.startTimeLocal.getD ""
      let dur := d.duration.getD 0
      .ok ⟨activityId, pyOrStr d.activityName "Strength Training",
        if st ≠ "" then strTake10 st else "", st,
        ⌊dur / 60⌋, dur, d.calories.getD 0, w.exercises,
        ⟨w.exercises.length, w.totalSets, w.totalReps, pyRound1 w.totalVolume,
          pyRound1 (pyAvg w.restTimes)⟩⟩

/-- Metrics projection of a decomposition result. -/
def strengthMetricsOf : StrengthResult → Option StrengthMetrics
  | .err _ => none
  | .ok o => some o.metrics

/-- Exercises projection of a decomposition result. -/
def strengthExercisesOf : StrengthResult → List ExerciseInfo
  | .err _ => []
  | .ok o => o.exercises

/-! ## Conversation context (GarminChatDesktop.py lines 422-423 and
1646-1659)

The short-term memory of the session: two entries appended per processed
message, then trimmed to the most recent `max_context_messages = 10` when
the bound is exceeded. -/

/-- One `conversation_context` entry. -/
structure ContextEntry where
  sender : String
  message : String
  timestamp : String
deriving DecidableEq, Repr

/-- `self.conversation_context[-maxN:]` applied when the length exceeds
`maxN` (lines 1658-1659). -/
def trimContext (l : List ContextEntry) (maxN : Nat) : List ContextEntry :=
  if maxN < l.length then l.drop (l.length - maxN) else l

/-- The context update of one processed message (lines 1646-1659): append
the user and assistant entries, then trim to the 10 newest. -/
def processContext (ctx : List ContextEntry) (u a : ContextEntry) : List ContextEntry :=
  trimContext (ctx ++ [u, a]) 10

/-- The context after a whole session of processed messages, starting from
the empty context of `__init__` (line 422). -/
def sessionContext (pairs : List (ContextEntry × ContextEntry)) : List ContextEntry :=
  pairs.foldl (fun c p => processContext c p.1 p.2) []

/-- The claim C5 synthetic set list: ACTIVE(10 reps, weight 100),
REST(60 s), ACTIVE(8 reps, weight 100). -/
def syntheticSets : List PySet :=
  [⟨some "ACTIVE", some 10, none, some 100, none, none⟩,
   ⟨some "REST", none, none, none, none, some 60⟩,
   ⟨some "ACTIVE", some 8, none, some 100, none, none⟩]

/-! ## Theorems -/

/-- Claim C1 counterexample: after a chat call whose provider call raises,
the adapter history is NOT equal to the history before the call — starting
from an empty history, the failed turn leaves one entry behind. -/
theorem chat_failure_history_changes :
    (chatStep [] "hi" none (fun _ => .error "boom")).2 ≠ [] := by
  decide

/-- Claim C1 (amended): when the provider call raises, the adapter appends
no assistant entry — the history after the call is exactly the history
before the call plus the user-turn entry (context-augmented user message),
and the classified error text returned to the user is not recorded. -/
theorem chat_failure_appends_only_user_turn (history : List ChatMsg)
    (userMessage : String) (garminContext : Option String)
    (provider : List ChatMsg → Except String String) (e : String)
    (h : provider (history ++ [⟨"user", fullMessage userMessage garminContext⟩]) =
      .error e) :
    (chatStep history userMessage garminContext provider).2 =
      history ++ [⟨"user", fullMessage userMessage garminContext⟩] := by
  simp only [chatStep, h]

/-- Witness for the amended claim C1 at a concrete failing provider. -/
theorem chat_failure_appends_only_user_turn_witness :
    (chatStep [] "hi" none (fun _ => .error "boom")).2 = [⟨"user", "hi"⟩] := by
  have h := chat_failure_appends_only_user_turn [] "hi" none
    (fun _ => .error "boom") "boom" rfl
  simpa [fullMessage] using h

/-- Claim C2 evaluated at the failing input: on a fresh no-MFA login whose
token persistence fails, `authenticate` returns an error result even though
the login itself succeeded (the unguarded `garth.save` at
garmin_handler.py:206 propagates to the outer handler at line 224);
`submit_mfa`, by contrast, returns success whether or not its guarded
persistence block succeeds. -/
theorem auth_persist_failure_divergence :
    authenticate ⟨false, false, false, false, false, false, .ok, false⟩ =
      (.authError "Authentication error: token save failed", false) ∧
    submitMfa ⟨true, .ok, .notTuple, false, false⟩ = (.success, false) ∧
    submitMfa ⟨true, .ok, .notTuple, false, true⟩ = (.success, true) := by
  decide

/-- Claim C6: every metric fetcher, called in the Authenticated state, maps
any exception raised by the external client — `AttributeError` (method not
supported) and any other failure alike — to an empty record, and (being a
total function into a plain record type) propagates no exception. -/
theorem fetchers_empty_on_exception (date : String) (e : PyErr) :
    getStepsData (.error e) = [] ∧
    getHeartRateData (.error e) = [] ∧
    getSleepData (.error e) = [] ∧
    getBodyBattery date (.error e) = none ∧
    getStressData date (.error e) = none ∧
    getRespirationData date (.error e) = none ∧
    getHydrationData (.error e) = [] ∧
    getFloorsData date (.error e) = none ∧
    getIntensityMinutes date (.error e) = none ∧
    getCaloriesData date (.error e) = none ∧
    getNutritionSummary (.error e) (.error e) (.error e) = [] ∧
    getSpo2Data (.error e) = [] ∧
    getHrvData (.error e) = [] ∧
    getTrainingStatus (.error e) = [] :=
  ⟨rfl, rfl, rfl, rfl, rfl, rfl, rfl, rfl, rfl, rfl, rfl, rfl, rfl, rfl⟩

/-- Length bound of one context update: the update itself never leaves more
than 10 entries. -/
theorem processContext_length_le (ctx : List ContextEntry) (u a : ContextEntry) :
    (processContext ctx u a).length ≤ 10 := by
  unfold processContext trimContext
  split
  · rename_i h
    simp only [List.length_drop]
    omega
  · rename_i h
    omega

/-- Claim C9: each processed message appends the user and assistant entries
at the end, evicting only from the front when the bound is exceeded; the
updated context never exceeds 10 entries; and a whole session starting from
the empty context stays within 10 entries. -/
theorem conversation_context_bounded (ctx : List ContextEntry) (u a : ContextEntry)
    (pairs : List (ContextEntry × ContextEntry)) :
    processContext ctx u a =
      (if 10 < ctx.length + 2 then ctx.drop (ctx.length - 8) else ctx) ++ [u, a] ∧
    (processContext ctx u a).length ≤ 10 ∧
    (sessionContext pairs).length ≤ 10 := by
  refine ⟨?_, processContext_length_le ctx u a, ?_⟩
  · unfold processContext trimContext
    have hl : (ctx ++ [u, a]).length = ctx.length + 2 := by simp
    rw [hl]
    by_cases h : 10 < ctx.length + 2
    · rw [if_pos h, if_pos h, List.drop_append_of_le_length (by omega)]
      congr 2
    · simp only [if_neg h]
  · have step : ∀ (ps : List (ContextEntry × ContextEntry)) (x : List ContextEntry),
        x.length ≤ 10 →
        (ps.foldl (fun c p => processContext c p.1 p.2) x).length ≤ 10 := by
      intro ps
      induction ps with
      | nil => intro x hx; simpa using hx
      | cons p ps ih =>
        intro x _
        simpa using ih (processContext x p.1 p.2) (processContext_length_le x p.1 p.2)
    simpa [sessionContext] using step pairs [] (by simp)

/-- Concrete date shared by the router witnesses. -/
def witnessDate : PyDate := ⟨2026, 10, 12⟩

/-- Claim C3: a numeric relative period makes the date range end today and
start today minus N, 7 N or 30 N days for day/week/month units, and when no
numeric period matched, the simple period `last month` starts a fixed 30
days back while `this month` starts on the first day of the current
calendar month. -/
theorem router_explicit_date_ranges (today : PyDate) (msg : String) :
    (∀ n : Nat, findNumericPeriod (lowerCodes msg) = some (n, PeriodUnit.day) →
      routeIntent today msg = ⟨.range ⟨subDays today n, today⟩, .activities⟩) ∧
    (∀ n : Nat, findNumericPeriod (lowerCodes msg) = some (n, PeriodUnit.week) →
      routeIntent today msg = ⟨.range ⟨subDays today (7 * (n : Int)), today⟩, .activities⟩) ∧
    (∀ n : Nat, findNumericPeriod (lowerCodes msg) = some (n, PeriodUnit.month) →
      routeIntent today msg = ⟨.range ⟨subDays today (30 * (n : Int)), today⟩, .activities⟩) ∧
    (findNumericPeriod (lowerCodes msg) = none →
      findSimplePeriod (lowerCodes msg) = some (.lastW, .month) →
      routeIntent today msg = ⟨.range ⟨subDays today 30, today⟩, .activities⟩) ∧
    (findNumericPeriod (lowerCodes msg) = none →
      findSimplePeriod (lowerCodes msg) = some (.thisW, .month) →
      routeIntent today msg = ⟨.range ⟨⟨today.year, today.month, 1⟩, today⟩, .activities⟩) := by
  refine ⟨?_, ?_, ?_, ?_, ?_⟩
  · intro n h
    simp only [routeIntent, routeCodes, h, periodDays]
  · intro n h
    simp only [routeIntent, routeCodes, h, periodDays]
  · intro n h
    simp only [routeIntent, routeCodes, h, periodDays]
  · intro h1 h2
    unfold routeIntent routeCodes
    rw [h1, h2]
    rfl
  · intro h1 h2
    unfold routeIntent routeCodes
    rw [h1, h2]
    rfl

/-- Witness for claim C3 on the example messages of the spec. -/
theorem router_explicit_date_ranges_witness :
    routeIntent witnessDate "last 5 days" =
      ⟨.range ⟨subDays witnessDate 5, witnessDate⟩, .activities⟩ ∧
    routeIntent witnessDate "past 2 weeks" =
      ⟨.range ⟨subDays witnessDate 14, witnessDate⟩, .activities⟩ ∧
    routeIntent witnessDate "last 3 months" =
      ⟨.range ⟨subDays witnessDate 90, witnessDate⟩, .activities⟩ ∧
    routeIntent witnessDate "last month" =
      ⟨.range ⟨subDays witnessDate 30, witnessDate⟩, .activities⟩ ∧
    routeIntent witnessDate "this month" =
      ⟨.range ⟨⟨2026, 10, 1⟩, witnessDate⟩, .activities⟩ :=
  ⟨(router_explicit_date_ranges witnessDate "last 5 days").1 5 (by decide),
   (router_explicit_date_ranges witnessDate "past 2 weeks").2.1 2 (by decide),
   (router_explicit_date_ranges witnessDate "last 3 months").2.2.1 3 (by decide),
   (router_explicit_date_ranges witnessDate "last month").2.2.2.1 (by decide) (by decide),
   (router_explicit_date_ranges witnessDate "this month").2.2.2.2 (by decide) (by decide)⟩

/-- Claim C4: the summary group (the third group checked, containing
`calorie`) wins for every message that contains `calorie` and matches
neither of the two groups checked before it, and in particular the message
`how many calories did I burn` routes to the summary topic with the default
item count, not to nutrition. -/
theorem calorie_routes_to_summary (today : PyDate) (msg : String)
    (h1 : hasSub (strCodes "calorie") (lowerCodes msg) = true)
    (h2 : anyKeyword (lowerCodes msg)
      ["activity", "activities", "workout", "run", "walk", "bike", "exercise"] = false)
    (h3 : anyKeyword (lowerCodes msg) ["sleep", "rest", "bed"] = false) :
    classifyTopic (lowerCodes msg) = .summary ∧
    routeIntent today "how many calories did I burn" = ⟨.count 5, .summary⟩ := by
  constructor
  · have hsum : anyKeyword (lowerCodes msg) ["step", "walk", "distance", "calorie"] = true := by
      simp [anyKeyword, h1]
    simp only [classifyTopic, topicGroups, classifyFrom, h2, h3, hsum,
      Bool.false_eq_true, if_false, if_true]
  · rfl

/-- Witness for claim C4 at the example message of the spec. -/
theorem calorie_routes_to_summary_witness :
    classifyTopic (lowerCodes "how many calories did I burn") = .summary ∧
    routeIntent witnessDate "how many calories did I burn" = ⟨.count 5, .summary⟩ :=
  calorie_routes_to_summary witnessDate "how many calories did I burn"
    (by decide) (by decide) (by decide)

/-- A message matching no keyword group classifies as `all`. -/
theorem classifyFrom_eq_all (q : List Nat) :
    ∀ gs : List (List String × Topic),
      (∀ g ∈ gs, anyKeyword q g.1 = false) → classifyFrom gs q = .all := by
  intro gs
  induction gs with
  | nil => intro _; rfl
  | cons g rest ih =>
    intro h
    have hg := h g (List.mem_cons_self g rest)
    simp only [classifyFrom, hg, Bool.false_eq_true, if_false]
    exact ih fun g' hg' => h g' (List.mem_cons_of_mem g hg')

/-- Claim C8: the routing step is a total function (hence deterministic) of
the lowered message text — two calls on the same text, or on texts with the
same lowering, give identical decisions — and when no time pattern, no
count pattern, no broad phrase and no keyword group matches, the default
decision is the all-categories topic with the default item count 5. -/
theorem router_pure_total_default (today : PyDate) (msg msg2 : String) :
    routeIntent today msg = routeIntent today msg ∧
    (lowerCodes msg = lowerCodes msg2 → routeIntent today msg = routeIntent today msg2) ∧
    (findNumericPeriod (lowerCodes msg) = none →
      findSimplePeriod (lowerCodes msg) = none →
      findCountNumber (lowerCodes msg) = none →
      anyBroadPhrase (lowerCodes msg) = false →
      (∀ g ∈ topicGroups, anyKeyword (lowerCodes msg) g.1 = false) →
      routeIntent today msg = ⟨.count 5, .all⟩) := by
  refine ⟨rfl, ?_, ?_⟩
  · intro h
    simp only [routeIntent, h]
  · intro h1 h2 h3 h4 h5
    simp only [routeIntent, routeCodes, h1, h2, h3, h4, Bool.false_eq_true, if_false,
      classifyTopic, classifyFrom_eq_all (lowerCodes msg) topicGroups h5]

/-- Witness for claim C8: same decision for two spellings of one text, and
the default decision for a message matching nothing. -/
theorem router_pure_total_default_witness :
    routeIntent witnessDate "HELLO" = routeIntent witnessDate "hello" ∧
    routeIntent witnessDate "zzz qqq" = ⟨.count 5, .all⟩ :=
  ⟨(router_pure_total_default witnessDate "HELLO" "hello").2.1 (by decide),
   (router_pure_total_default witnessDate "zzz qqq" "zzz qqq").2.2
     (by decide) (by decide) (by decide) (by decide) (by decide)⟩

/-- Claim C5: the synthetic one-exercise set list ACTIVE(10 reps, 100),
REST(60 s), ACTIVE(8 reps, 100) decomposes to 18 total reps, total volume
1800 (reps times weight summed over the weighted sets) and an average rest
time of 60, for any strength-typed activity carrying it. -/
theorem strength_synthetic_metrics (aid : Int) (tk ename ecat : String)
    (aname stime : Option String) (dur : Option ℚ) (cal : Option Int)
    (h : hasSub (strCodes "strength") (lowerCodes tk) = true) :
    strengthMetricsOf (getStrengthTrainingDetails aid
      (some ⟨some tk, aname, stime, dur, cal,
        some [⟨some ename, some ecat, syntheticSets⟩], none⟩)) =
      some ⟨1, 2, 18, 1800, 60⟩ := by
  simp +decide only [getStrengthTrainingDetails, h, effectiveSets, walkExercises,
    processExercise, buildSets, syntheticSets, isActiveSet, isRestSet, repsOf, pyOrStr,
    pyRound1, pyAvg, strengthMetricsOf]
  norm_num
  simp [h]

/-- Witness for claim C5 at a fully concrete activity. -/
theorem strength_synthetic_metrics_witness :
    strengthMetricsOf (getStrengthTrainingDetails 1
      (some ⟨some "strength_training", some "Workout", some "2026-10-12 07:00:00",
        some 1800, some 300, some [⟨some "Bench", some "bench", syntheticSets⟩], none⟩)) =
      some ⟨1, 2, 18, 1800, 60⟩ :=
  strength_synthetic_metrics 1 "strength_training" "Bench" "bench"
    (some "Workout") (some "2026-10-12 07:00:00") (some 1800) (some 300) (by decide)

/-- A set list with no ACTIVE set yields no set infos, no reps and no
volume, only its positive REST durations, at any set-number offset. -/
theorem buildSets_no_active (sets : List PySet)
    (h : ∀ s ∈ sets, isActiveSet s = false) :
    ∀ k, buildSets sets k = ([], collectRests sets, 0, 0) := by
  induction sets with
  | nil => intro k; rfl
  | cons s rest ih =>
    intro k
    have hs := h s (List.mem_cons_self s rest)
    have hrest : ∀ x ∈ rest, isActiveSet x = false :=
      fun x hx => h x (List.mem_cons_of_mem s hx)
    simp only [buildSets, collectRests, hs, Bool.false_eq_true, if_false]
    by_cases hr : isRestSet s = true
    · simp only [hr, if_true, ih hrest k]
    · simp only [hr, Bool.false_eq_true, if_false, ih hrest k]

/-- The outer exercise loop distributes over list concatenation. -/
theorem walkExercises_append (l1 l2 : List PyExercise) :
    walkExercises (l1 ++ l2) = combineWalk (walkExercises l1) (walkExercises l2) := by
  induction l1 with
  | nil =>
    simp [walkExercises, combineWalk]
  | cons e rest ih =>
    simp only [List.cons_append, walkExercises, List.append_eq]
    rw [ih]
    simp only [combineWalk, WalkAcc.mk.injEq]
    refine ⟨?_, by ring, by ring, by ring, by simp⟩
    split
    · simp
    · simp

/-- Claim C10: an exercise group with no ACTIVE sets is omitted from the
returned exercises and contributes nothing to the volume/set/rep/exercise
totals — the result equals the result without the group except that the
positive REST durations of the group still enter the global rest-time list, from
which `average_rest_time` is computed. -/
theorem empty_group_only_feeds_rest_average (aid : Int) (tk : String)
    (aname stime : Option String) (dur : Option ℚ) (cal : Option Int)
    (pre post : List PyExercise) (g : PyExercise)
    (h : hasSub (strCodes "strength") (lowerCodes tk) = true)
    (hg : ∀ s ∈ g.sets, isActiveSet s = false) :
    walkExercises (pre ++ g :: post) =
      ⟨(walkExercises (pre ++ post)).exercises, (walkExercises (pre ++ post)).totalSets,
        (walkExercises (pre ++ post)).totalReps, (walkExercises (pre ++ post)).totalVolume,
        (walkExercises pre).restTimes ++ collectRests g.sets ++
          (walkExercises post).restTimes⟩ ∧
    strengthExercisesOf (getStrengthTrainingDetails aid
        (some ⟨some tk, aname, stime, dur, cal, some (pre ++ g :: post), none⟩)) =
      strengthExercisesOf (getStrengthTrainingDetails aid
        (some ⟨some tk, aname, stime, dur, cal, some (pre ++ post), none⟩)) ∧
    strengthMetricsOf (getStrengthTrainingDetails aid
        (some ⟨some tk, aname, stime, dur, cal, some (pre ++ g :: post), none⟩)) =
      (strengthMetricsOf (getStrengthTrainingDetails aid
        (some ⟨some tk, aname, stime, dur, cal, some (pre ++ post), none⟩))).map
        fun m => ⟨m.totalExercises, m.totalSets, m.totalReps, m.totalVolume,
          pyRound1 (pyAvg ((walkExercises pre).restTimes ++ collectRests g.sets ++
            (walkExercises post).restTimes))⟩ := by
  have hpe : processExercise g =
      ⟨pyOrStr g.exerciseName (g.category.getD "Unknown Exercise"), g.category.getD "",
        [], collectRests g.sets, 0, 0⟩ := by
    simp only [processExercise, buildSets_no_active g.sets hg 0]
  have hwalk : walkExercises (pre ++ g :: post) =
      ⟨(walkExercises (pre ++ post)).exercises, (walkExercises (pre ++ post)).totalSets,
        (walkExercises (pre ++ post)).totalReps, (walkExercises (pre ++ post)).totalVolume,
        (walkExercises pre).restTimes ++ collectRests g.sets ++
          (walkExercises post).restTimes⟩ := by
    have hmid : walkExercises (g :: post) =
        ⟨(walkExercises post).exercises, (walkExercises post).totalSets,
          (walkExercises post).totalReps, (walkExercises post).totalVolume,
          collectRests g.sets ++ (walkExercises post).restTimes⟩ := by
      simp [walkExercises, hpe]
    rw [walkExercises_append pre (g :: post), hmid, walkExercises_append pre post,
      combineWalk, combineWalk]
    simp [List.append_assoc]
  have heff1 : effectiveSets
      ⟨some tk, aname, stime, dur, cal, some (pre ++ g :: post), none⟩ =
      pre ++ g :: post := by
    simp [effectiveSets]
  have heff2 : effectiveSets
      ⟨some tk, aname, stime, dur, cal, some (pre ++ post), none⟩ = pre ++ post := by
    simp only [effectiveSets, Option.getD_some, Option.getD_none]
    by_cases hpp : pre ++ post = []
    · simp [hpp]
    · simp [hpp]
  refine ⟨hwalk, ?_, ?_⟩
  · simp [getStrengthTrainingDetails, h, heff1, heff2, strengthExercisesOf, hwalk]
  · simp [getStrengthTrainingDetails, h, heff1, heff2, strengthMetricsOf, hwalk,
      List.append_assoc]

/-- Requests issued by the pagination loop from any start index: between 1
and m batches when m batches suffice to reach the cap, each of size 50 at
consecutive 50-spaced start indices. -/
theorem goFetch_requests (client : Nat → Nat → List PyActivity) (s e : PyDate) :
    ∀ (m cs : Nat) (acc : List PyActivity) (reqs : List (Nat × Nat)),
      500 ≤ cs + 50 * m → 1 ≤ m →
      ∃ k, 1 ≤ k ∧ k ≤ m ∧
        (goFetch client s e cs acc reqs).requests =
          reqs ++ (List.range k).map (fun i => (cs + 50 * i, 50)) := by
  intro m
  induction m with
  | zero => intro cs acc reqs _ h1; omega
  | succ m ih =>
    intro cs acc reqs hcap _
    rw [goFetch]
    by_cases hb : client cs 50 = []
    · exact ⟨1, le_refl 1, by omega, by simp [hb, List.range_succ]⟩
    · cases hscan : scanBatch s e acc (client cs 50) with
      | early acc2 =>
        exact ⟨1, le_refl 1, by omega, by simp [hb, hscan, List.range_succ]⟩
      | aborted =>
        exact ⟨1, le_refl 1, by omega, by simp [hb, hscan, List.range_succ]⟩
      | finished acc2 =>
        by_cases hcs : 500 ≤ cs + 50
        · exact ⟨1, le_refl 1, by omega, by simp [hb, hscan, hcs, List.range_succ]⟩
        · have hm : 1 ≤ m := by omega
          obtain ⟨k, hk1, hkm, hreq⟩ :=
            ih (cs + 50) acc2 (reqs ++ [(cs, 50)]) (by omega) hm
          refine ⟨k + 1, by omega, by omega, ?_⟩
          have hshift :
              ((fun i => (cs + 50 * i, 50)) ∘ Nat.succ) =
                fun i => (cs + 50 + 50 * i, 50) := by
            funext i
            simp only [Function.comp, Nat.succ_eq_add_one]
            congr 1
            ring
          simp only [hb, hscan, hcs, if_neg, if_false]
          rw [hreq, List.range_succ_eq_map, List.map_cons, List.map_map, hshift]
          simp

/-- Claim C7: the date-range fetch requests fixed batches of 50 at
consecutive 50-spaced start indices and issues at most 10 of them (at most
500 activities in total, so the loop terminates); the batch scan returns
the moment it meets an activity dated before the range start, keeping what
was collected; and when a full scan completes with the next start index at
the 500 cap, the loop stops with the cap warning and returns the collected
activities instead of raising. -/
theorem activities_by_date_pagination (client : Nat → Nat → List PyActivity)
    (s e : PyDate) :
    (∃ k, 1 ≤ k ∧ k ≤ 10 ∧
      (getActivitiesByDate client s e).requests =
        (List.range k).map fun i => (50 * i, 50)) ∧
    (∀ q ∈ (getActivitiesByDate client s e).requests, q.2 = 50) ∧
    (∀ (acc pre post : List PyActivity) (a : PyActivity) (d : PyDate),
      (∀ b ∈ pre, scanKeepsGoing s b = true) →
      a.startTimeLocal = .good d → pyDateLt d s = true →
      scanBatch s e acc (pre ++ a :: post) =
        .early (acc ++ pre.filter (inDateRange s e))) ∧
    (∀ (cs : Nat) (acc acc2 : List PyActivity) (reqs : List (Nat × Nat)),
      client cs 50 ≠ [] → scanBatch s e acc (client cs 50) = .finished acc2 →
      500 ≤ cs + 50 →
      goFetch client s e cs acc reqs = ⟨acc2, reqs ++ [(cs, 50)], true⟩) := by
  refine ⟨?_, ?_, ?_, ?_⟩
  · obtain ⟨k, hk1, hk10, hreq⟩ :=
      goFetch_requests client s e 10 0 [] [] (by omega) (by omega)
    exact ⟨k, hk1, hk10, by simpa using hreq⟩
  · intro q hq
    obtain ⟨k, _, _, hreq⟩ :=
      goFetch_requests client s e 10 0 [] [] (by omega) (by omega)
    rw [getActivitiesByDate] at hq
    rw [hreq] at hq
    simp only [List.nil_append, List.mem_map] at hq
    obtain ⟨i, _, hi⟩ := hq
    rw [← hi]
  · intro acc pre post a d hpre ha hd
    induction pre generalizing acc with
    | nil =>
      have hd' : daysFromCivil d < daysFromCivil s := by
        simpa [pyDateLt] using hd
      have hle : pyDateLe s d = false := by
        simp only [pyDateLe, decide_eq_false_iff_not]
        omega
      simp [scanBatch, ha, hle, hd]
    | cons b rest ih =>
      have hrest : ∀ x ∈ rest, scanKeepsGoing s x = true :=
        fun x hx => hpre x (List.mem_cons_of_mem b hx)
      cases hbd : b.startTimeLocal with
      | missing =>
        simp only [List.cons_append, scanBatch, hbd, List.append_eq]
        rw [ih acc hrest]
        simp [List.filter_cons, inDateRange, hbd]
      | malformed =>
        have hkg := hpre b (List.mem_cons_self b rest)
        rw [scanKeepsGoing, hbd] at hkg
        simp at hkg
      | good d2 =>
        have hlt2 : pyDateLt d2 s = false := by
          have hkg := hpre b (List.mem_cons_self b rest)
          rw [scanKeepsGoing, hbd] at hkg
          simpa using hkg
        by_cases hc : (pyDateLe s d2 && pyDateLe d2 e) = true
        · simp only [List.cons_append, scanBatch, hbd, hc, if_true, List.append_eq]
          rw [ih (acc ++ [b]) hrest]
          simp [List.filter_cons, inDateRange, hbd, hc]
        · have hcf : (pyDateLe s d2 && pyDateLe d2 e) = false := by
            cases h2 : (pyDateLe s d2 && pyDateLe d2 e)
            · rfl
            · exact absurd h2 hc
          simp only [List.cons_append, scanBatch, hbd, hcf, hlt2,
            Bool.false_eq_true, if_false, List.append_eq]
          rw [ih acc hrest]
          simp [List.filter_cons, inDateRange, hbd, hcf]
  · intro cs acc acc2 reqs hb hscan hcs
    rw [goFetch]
    simp [hb, hscan, hcs]

/-- Witness for claim C7: the pagination request shape on an empty account,
an early stop on the first below-range activity with the collected prefix,
and the cap-warning stop after a full scan at start index 450. -/
theorem activities_by_date_pagination_witness :
    (∃ k, 1 ≤ k ∧ k ≤ 10 ∧
      (getActivitiesByDate (fun _ _ => []) ⟨2026, 1, 1⟩ ⟨2026, 10, 12⟩).requests =
        (List.range k).map fun i => (50 * i, 50)) ∧
    scanBatch ⟨2026, 1, 1⟩ ⟨2026, 10, 12⟩ []
        ([⟨1, .good ⟨2026, 5, 5⟩⟩] ++ ⟨2, .good ⟨2025, 1, 1⟩⟩ :: [⟨3, .missing⟩]) =
      .early ([] ++ [⟨1, .good ⟨2026, 5, 5⟩⟩].filter
        (inDateRange ⟨2026, 1, 1⟩ ⟨2026, 10, 12⟩)) ∧
    goFetch (fun _ _ => [⟨9, .good ⟨2026, 5, 5⟩⟩]) ⟨2026, 1, 1⟩ ⟨2026, 10, 12⟩
        450 [] [] =
      ⟨[⟨9, .good ⟨2026, 5, 5⟩⟩], [] ++ [(450, 50)], true⟩ :=
  ⟨(activities_by_date_pagination (fun _ _ => []) ⟨2026, 1, 1⟩ ⟨2026, 10, 12⟩).1,
   (activities_by_date_pagination (fun _ _ => []) ⟨2026, 1, 1⟩ ⟨2026, 10, 12⟩).2.2.1
     [] [⟨1, .good ⟨2026, 5, 5⟩⟩] [⟨3, .missing⟩] ⟨2, .good ⟨2025, 1, 1⟩⟩ ⟨2025, 1, 1⟩
     (by decide) rfl (by decide),
   (activities_by_date_pagination (fun _ _ => [⟨9, .good ⟨2026, 5, 5⟩⟩])
       ⟨2026, 1, 1⟩ ⟨2026, 10, 12⟩).2.2.2
     450 [] [⟨9, .good ⟨2026, 5, 5⟩⟩] [] (by decide) (by decide) (by decide)⟩
theorem empty_group_only_feeds_rest_average_witness :
    strengthExercisesOf (getStrengthTrainingDetails 2
        (some ⟨some "strength_training", some "Workout", none, none, none,
          some ([] ++ ⟨some "Plank", some "plank",
            [⟨some "REST", none, none, none, none, some 45⟩]⟩ ::
            [⟨some "Bench", some "bench", syntheticSets⟩]), none⟩)) =
      strengthExercisesOf (getStrengthTrainingDetails 2
        (some ⟨some "strength_training", some "Workout", none, none, none,
          some ([] ++ [⟨some "Bench", some "bench", syntheticSets⟩]), none⟩)) ∧
    strengthMetricsOf (getStrengthTrainingDetails 2
        (some ⟨some "strength_training", some "Workout", none, none, none,
          some ([] ++ ⟨some "Plank", some "plank",
            [⟨some "REST", none, none, none, none, some 45⟩]⟩ ::
            [⟨some "Bench", some "bench", syntheticSets⟩]), none⟩)) =
      (strengthMetricsOf (getStrengthTrainingDetails 2
        (some ⟨some "strength_training", some "Workout", none, none, none,
          some ([] ++ [⟨some "Bench", some "bench", syntheticSets⟩]), none⟩))).map
        fun m => ⟨m.totalExercises, m.totalSets, m.totalReps, m.totalVolume,
          pyRound1 (pyAvg ((walkExercises []).restTimes ++
            collectRests [⟨some "REST", none, none, none, none, some 45⟩] ++
            (walkExercises [⟨some "Bench", some "bench", syntheticSets⟩]).restTimes))⟩ :=
  ⟨(empty_group_only_feeds_rest_average 2 "strength_training" (some "Workout") none
      none none [] [⟨some "Bench", some "bench", syntheticSets⟩]
      ⟨some "Plank", some "plank", [⟨some "REST", none, none, none, none, some 45⟩]⟩
      (by decide) (by decide)).2.1,
   (empty_group_only_feeds_rest_average 2 "strength_training" (some "Workout") none
      none none [] [⟨some "Bench", some "bench", syntheticSets⟩]
      ⟨some "Plank", some "plank", [⟨some "REST", none, none, none, none, some 45⟩]⟩
      (by decide) (by decide)).2.2⟩
